import Mathlib

/-!
Shallow embedding of the gif-tsx library (src/dist/index.js): the frame
extraction/compositing routine `extractFrames` and the playback controller
exposed by `useGifController`.  Pixel rasters are modelled as functions from
coordinates to RGBA values; the HTML canvas 2D operations the code relies on
(`putImageData`, `getImageData`, `drawImage` with source-over compositing)
are modelled per their standard semantics, since the drawable is an external
collaborator of this library.
-/

/-- An RGBA pixel with 8-bit channels (values 0..255). -/
structure RGBA where
  r : Nat
  g : Nat
  b : Nat
  a : Nat
deriving DecidableEq, Repr

/-- The fully transparent black pixel: the initial content of a freshly
created canvas and of `createImageData` buffers. -/
def RGBA.clear : RGBA := ⟨0, 0, 0, 0⟩

/-- A raster of pixels addressed by (x, y).  Width and height are tracked by
the operations that use a raster, matching how the source passes explicit
rectangle sizes to every canvas call. -/
def Canvas : Type := Nat → Nat → RGBA

/-- A freshly created canvas or `createImageData` buffer: all pixels are
transparent black. -/
def blankCanvas : Canvas := fun _ _ => RGBA.clear

/-- Source-over alpha compositing of one pixel over another, as performed by
`ctx.drawImage`.  A fully transparent source leaves the destination pixel
unchanged; a fully opaque source replaces it; otherwise the standard
source-over blend is taken (integer arithmetic models the 8-bit channels). -/
def RGBA.over (src dst : RGBA) : RGBA :=
  if src.a = 0 then dst
  else if src.a = 255 then src
  else
    let ao255 := src.a * 255 + dst.a * (255 - src.a)
    let ch : Nat → Nat → Nat := fun cs cd =>
      (cs * src.a * 255 + cd * dst.a * (255 - src.a)) / ao255
    ⟨ch src.r dst.r, ch src.g dst.g, ch src.b dst.b, ao255 / 255⟩

/-- Semantics of `dstCtx.putImageData(img, dx, dy, sx, sy, sw, sh)`: the
sub-rectangle [sx, sx+sw) x [sy, sy+sh) of `img` is written (raw replacement,
alpha included) onto the destination at the corresponding position offset by
(dx, dy); every other destination pixel is untouched.  The 3-argument form
`putImageData(img, dx, dy)` is this with sx = sy = 0 and sw, sh the size of
`img`. -/
def putImageData (dst img : Canvas) (dx dy sx sy sw sh : Nat) : Canvas :=
  fun x y =>
    if dx + sx ≤ x ∧ x < dx + sx + sw ∧ dy + sy ≤ y ∧ y < dy + sy + sh then
      img (x - dx) (y - dy)
    else dst x y

/-- Semantics of `srcCtx.getImageData(sx, sy, sw, sh)`: an image buffer whose
pixel (x, y) is the source pixel (sx + x, sy + y); the sw x sh size is carried
by the subsequent `putImageData` call that consumes the buffer. -/
def getImageData (src : Canvas) (sx sy : Nat) : Canvas :=
  fun x y => src (sx + x) (sy + y)

/-- Semantics of `dstCtx.drawImage(srcCanvas, 0, 0)`: source-over compositing
of the source canvas onto the destination, pixel by pixel. -/
def drawImage (dst src : Canvas) : Canvas :=
  fun x y => (src x y).over (dst x y)

/-- Per-frame metadata as returned by `gifReader.frameInfo(i)` (the omggif
parser): the dirty rectangle (x, y, width, height), the disposal code and the
delay in centiseconds. -/
structure FrameInfo where
  x : Nat
  y : Nat
  width : Nat
  height : Nat
  disposal : Nat
  delay : Nat
deriving DecidableEq, Repr, Inhabited

/-- Model of the upstream `GifReader` collaborator: overall canvas size, the
per-frame metadata list (its length is `numFrames()`), and for each frame
index the full-canvas RGBA buffer produced by
`decodeAndBlitFrameRGBA(i, buffer)` when handed a zeroed
`createImageData(width, height)` buffer. -/
structure GifReader where
  width : Nat
  height : Nat
  frames : List FrameInfo
  pixels : Nat → Canvas

/-- The parser's `numFrames()`: the number of frames it reports. -/
def GifReader.numFrames (r : GifReader) : Nat := r.frames.length

/-- The parser's `frameInfo(i)`: metadata of frame `i`. -/
def GifReader.frameInfo (r : GifReader) (i : Nat) : FrameInfo :=
  r.frames.getD i default

/-- One extracted frame as pushed onto `frames` by `extractFrames`: the delay
converted to milliseconds and the snapshot of the accumulation canvas. -/
structure Frame where
  delay : Nat
  imageData : Canvas

instance : Inhabited Frame := ⟨⟨0, blankCanvas⟩⟩

/-- Availability of 2D drawing contexts: `ctxOk` models whether
`canvas.getContext("2d")` for the accumulation canvas succeeds, and
`tempCtxOk i` whether the temporary canvas context acquired on loop iteration
`i` succeeds (`getContext` may return null, in which case `extractFrames`
returns null). -/
structure CanvasEnv where
  ctxOk : Bool
  tempCtxOk : Nat → Bool

/-- The body of the decode loop of `extractFrames` (src/dist/index.js lines
27-58) for one frame index: destructures `gifReader.frameInfo(0)` — note the
constant index 0 in the source, not `frameIndex` — blits the decoded pixels
of frame `frameIndex` onto a fresh temporary canvas restricted to the dirty
rectangle, applies the disposal rule to the accumulation canvas `ctx`, and
returns the updated accumulation canvas together with the pushed frame
record (delay times 10, full-canvas snapshot). -/
def extractFramesStep (reader : GifReader) (ctx : Canvas) (frameIndex : Nat) :
    Canvas × Frame :=
  let info := reader.frameInfo 0
  let newImageData := reader.pixels frameIndex
  let tempCanvas :=
    putImageData blankCanvas newImageData 0 0 info.x info.y info.width info.height
  let ctx2 :=
    if info.disposal = 0 ∨ info.disposal = 1 then
      drawImage ctx tempCanvas
    else if info.disposal = 2 then
      putImageData ctx (getImageData tempCanvas 0 0) 0 0 0 0 info.width info.height
    else ctx
  (ctx2, { delay := info.delay * 10, imageData := ctx2 })

/-- The decode loop of `extractFrames`: iterates `remaining` frames starting
at index `i`, threading the accumulation canvas, and returns `none` when a
temporary canvas context cannot be acquired (the source's early
`return null`). -/
def extractFramesGo (env : CanvasEnv) (reader : GifReader) :
    Nat → Nat → Canvas → Option (List Frame)
  | _, 0, _ => some []
  | i, remaining + 1, ctx =>
    if env.tempCtxOk i then
      let step := extractFramesStep reader ctx i
      match extractFramesGo env reader (i + 1) remaining step.1 with
      | some rest => some (step.2 :: rest)
      | none => none
    else none

/-- The `extractFrames` function (src/dist/index.js lines 12-61): returns
`none` when the accumulation canvas 2D context cannot be acquired, and
otherwise runs the decode loop over all `numFrames()` frames starting from a
blank accumulation canvas. -/
def extractFrames (env : CanvasEnv) (reader : GifReader) : Option (List Frame) :=
  if env.ctxOk then extractFramesGo env reader 0 reader.numFrames blankCanvas
  else none

/-- The `state` variable of `useGifController`: loading, error with a
message, or resolved with the reader and the extracted frames. -/
inductive HookState where
  | loading
  | error (errorMessage : String)
  | resolved (gifReader : GifReader) (frames : List Frame)

/-- Whether a hook state is the loading state. -/
def HookState.isLoading : HookState → Bool
  | .loading => true
  | _ => false

/-- Whether a hook state is an error state. -/
def HookState.isError : HookState → Bool
  | .error _ => true
  | _ => false

/-- Whether a hook state is resolved (the hook reports state "resolved"). -/
def HookState.isResolved : HookState → Bool
  | .resolved _ _ => true
  | _ => false

/-- The reader's reported frame count of a resolved state, `none` otherwise. -/
def HookState.resolvedFrameCount : HookState → Option Nat
  | .resolved reader _ => some reader.numFrames
  | _ => none

/-- The completion of `loadGif` inside `useGifController` (src/dist/index.js
lines 97-119): run `extractFrames`; if it returned null, set the error state
with the fixed message, otherwise set the resolved state holding the reader
and frames.  A JavaScript falsiness check `if (!frames)` is true exactly for
`null` here — an empty array is truthy — so only a null result errors. -/
def loadGifResolve (env : CanvasEnv) (reader : GifReader) : HookState :=
  match extractFrames env reader with
  | none => .error "Could not extract frames from GIF."
  | some frames => .resolved reader frames

/-- The effect on the hook state of one pending decode resolving.  The
source's `loadGif` continuation calls `setState` unconditionally when its
fetch/decode resolves: there is no generation token or cancellation, so a
resolving decode overwrites whatever state is current, regardless of whether
the URL it was started for is still the current one. -/
def resolveDecode (env : CanvasEnv) (reader : GifReader) (_prev : HookState) :
    HookState :=
  loadGifResolve env reader

/-- The mutable playback-side state of the controller: the `frameIndex` ref
(initialised to -1), the drawable canvas the visible `ctx` writes into, and
the playing flag (modelling `playing` state and the `_playing` ref, which the
effect on `[playing]` keeps synchronised). -/
structure PlaybackState where
  frameIndex : Int
  drawable : Canvas
  playing : Bool

/-- The `renderFrame` function of the controller (src/dist/index.js lines
202-208): a no-op unless the 2D context is available and the state is
resolved; a no-op when the requested index is outside [0, numFrames); and
otherwise writes frame `i`'s imageData to the drawable at (0, 0).  The
`frameIndex` parameter shadows the `frameIndex` ref in the source, so the
ref is not modified here. -/
def renderFrame (ctxOk : Bool) (hs : HookState) (ps : PlaybackState) (i : Int) :
    PlaybackState :=
  match hs with
  | .resolved reader frames =>
    if ctxOk = false then ps
    else if i < 0 ∨ (reader.numFrames : Int) ≤ i then ps
    else
      { ps with
        drawable :=
          putImageData ps.drawable (frames.getD i.toNat default).imageData
            0 0 0 0 reader.width reader.height }
  | _ => ps

/-- The `renderNextFrame` function (src/dist/index.js lines 209-217):
advances to `frameIndex + 1`, wrapping to 0 at `numFrames()`, rendering that
frame and storing the new index in the ref. -/
def renderNextFrame (ctxOk : Bool) (hs : HookState) (ps : PlaybackState) :
    PlaybackState :=
  match hs with
  | .resolved reader _ =>
    if ctxOk = false then ps
    else
      let nextFrame : Int :=
        if (reader.numFrames : Int) ≤ ps.frameIndex + 1 then 0
        else ps.frameIndex + 1
      let ps2 := renderFrame ctxOk hs ps nextFrame
      { ps2 with frameIndex := nextFrame }
  | _ => ps

/-- The `renderPreviousFrame` function (src/dist/index.js lines 218-226):
retreats to `frameIndex - 1`, wrapping to `numFrames() - 1` below 0,
rendering that frame and storing the new index in the ref. -/
def renderPreviousFrame (ctxOk : Bool) (hs : HookState) (ps : PlaybackState) :
    PlaybackState :=
  match hs with
  | .resolved reader _ =>
    if ctxOk = false then ps
    else
      let prevFrame : Int :=
        if ps.frameIndex - 1 < 0 then (reader.numFrames : Int) - 1
        else ps.frameIndex - 1
      let ps2 := renderFrame ctxOk hs ps prevFrame
      { ps2 with frameIndex := prevFrame }
  | _ => ps

/-- The `play` function (src/dist/index.js lines 180-186): a no-op while
loading or in error, a no-op when already playing, otherwise sets the
playing flag (the timer arming is modelled by `playEvent` below). -/
def play (hs : HookState) (ps : PlaybackState) : PlaybackState :=
  match hs with
  | .resolved _ _ => if ps.playing then ps else { ps with playing := true }
  | _ => ps

/-- The `pause` function (src/dist/index.js lines 196-198): it calls
`setPlaying(false)` unconditionally — unlike `play` it has no loading/error
guard, so it takes the hook state only to record that it ignores it. -/
def pause (_hs : HookState) (ps : PlaybackState) : PlaybackState :=
  { ps with playing := false }

/-- The `restart` function (src/dist/index.js lines 199-201): it sets
`frameIndex.current = 0` unconditionally — no loading/error guard, no
context guard, and no rendering. -/
def restart (_hs : HookState) (ps : PlaybackState) : PlaybackState :=
  { ps with frameIndex := 0 }

/-- The playback-loop state: the controller's playback state plus the number
of `setTimeout` callbacks currently scheduled and not yet fired.  Delays are
abstracted away: only the order of events matters for the properties below,
not the wall-clock durations. -/
structure LoopState where
  ps : PlaybackState
  pendingTimers : Nat

/-- The `_iterateRenderLoop` function (src/dist/index.js lines 187-195):
returns immediately when loading, in error, or when the `_playing` ref is
false; otherwise schedules one `setTimeout` callback (modelled by
incrementing the pending-timer count). -/
def iterateRenderLoop (hs : HookState) (s : LoopState) : LoopState :=
  match hs with
  | .resolved _ _ =>
    if s.ps.playing then { s with pendingTimers := s.pendingTimers + 1 } else s
  | _ => s

/-- The effect of calling `play()` followed by React running the effect on
`[playing]` (src/dist/index.js lines 143-153): when the state is resolved
and the flag was false, the flag becomes true and `_iterateRenderLoop` runs,
arming one timer; otherwise nothing happens. -/
def playEvent (hs : HookState) (s : LoopState) : LoopState :=
  match hs with
  | .resolved _ _ =>
    if s.ps.playing then s
    else iterateRenderLoop hs { s with ps := { s.ps with playing := true } }
  | _ => s

/-- The effect of calling `pause()` followed by the effect on `[playing]`:
the playing flag (state and ref) becomes false.  No scheduled timer is
cancelled — the pending-timer count is unchanged. -/
def pauseEvent (hs : HookState) (s : LoopState) : LoopState :=
  { s with ps := pause hs s.ps }

/-- The firing of one scheduled `setTimeout` callback (src/dist/index.js
lines 191-194): the callback first calls `renderNextFrame()` and then
`_iterateRenderLoop()`, which re-arms a timer only if the `_playing` ref is
still true at fire time.  A fire requires a pending timer; with none pending
this is the identity. -/
def fireTick (ctxOk : Bool) (hs : HookState) (s : LoopState) : LoopState :=
  if s.pendingTimers = 0 then s
  else
    iterateRenderLoop hs
      { ps := renderNextFrame ctxOk hs s.ps,
        pendingTimers := s.pendingTimers - 1 }

/-- A canvas environment in which every 2D context acquisition succeeds. -/
def envOk : CanvasEnv := { ctxOk := true, tempCtxOk := fun _ => true }

/-- An opaque red pixel. -/
def redPixel : RGBA := ⟨255, 0, 0, 255⟩

/-- An opaque blue pixel. -/
def bluePixel : RGBA := ⟨0, 0, 255, 255⟩

/-- A canvas that is opaque red everywhere. -/
def redCanvas : Canvas := fun _ _ => redPixel

/-- A reader reporting zero frames on a 1 x 1 canvas. -/
def emptyReader : GifReader :=
  { width := 1, height := 1, frames := [], pixels := fun _ => blankCanvas }

/-- Frame metadata: full 1 x 1 dirty rectangle, disposal 1, delay 1 cs. -/
def infoDelay1 : FrameInfo :=
  { x := 0, y := 0, width := 1, height := 1, disposal := 1, delay := 1 }

/-- Frame metadata: full 1 x 1 dirty rectangle, disposal 1, delay 2 cs. -/
def infoDelay2 : FrameInfo :=
  { x := 0, y := 0, width := 1, height := 1, disposal := 1, delay := 2 }

/-- A two-frame reader whose frames carry different delays (1 cs and 2 cs). -/
def twoFrameReader : GifReader :=
  { width := 1, height := 1, frames := [infoDelay1, infoDelay2],
    pixels := fun _ => redCanvas }

/-- A one-frame reader on a 1 x 1 canvas. -/
def oneFrameReader : GifReader :=
  { width := 1, height := 1, frames := [infoDelay1], pixels := fun _ => redCanvas }

/-- A two-element frame list for building concrete resolved states. -/
def twoFrames : List Frame := [⟨10, blankCanvas⟩, ⟨10, blankCanvas⟩]

/-- A concrete resolved hook state over the two-frame reader. -/
def resolvedTwo : HookState := .resolved twoFrameReader twoFrames

/-- A concrete playback state: frame index 0, blank drawable, not playing. -/
def psZero : PlaybackState :=
  { frameIndex := 0, drawable := blankCanvas, playing := false }

/-- A concrete playback state: frame index 1, blank drawable, not playing. -/
def psOne : PlaybackState :=
  { frameIndex := 1, drawable := blankCanvas, playing := false }

/-- A concrete playback state as it stands while the hook is still loading:
the `frameIndex` ref holds its initial value -1 and the playing flag is
true (as happens when autoplay sets it before the decode settles). -/
def psLoading : PlaybackState :=
  { frameIndex := -1, drawable := blankCanvas, playing := true }

/-- Frame metadata with a dirty rectangle away from the origin: x = 1,
y = 0, 1 x 1, disposal code 2, delay 1 cs. -/
def infoDisposal2 : FrameInfo :=
  { x := 1, y := 0, width := 1, height := 1, disposal := 2, delay := 1 }

/-- A one-frame reader on a 2 x 1 canvas whose only frame uses disposal
code 2 with its dirty rectangle at x = 1, and decodes to opaque blue. -/
def disposal2Reader : GifReader :=
  { width := 2, height := 1, frames := [infoDisposal2],
    pixels := fun _ => fun _ _ => bluePixel }

/-- Frame metadata: dirty rectangle at the origin, 1 x 1, disposal 0. -/
def infoDisposal0 : FrameInfo :=
  { x := 0, y := 0, width := 1, height := 1, disposal := 0, delay := 1 }

/-- A one-frame reader on a 2 x 1 canvas whose only frame uses disposal
code 0 and decodes to fully transparent pixels. -/
def transparentReader : GifReader :=
  { width := 2, height := 1, frames := [infoDisposal0],
    pixels := fun _ => blankCanvas }

/-- The quiescent loop state: not playing, no pending timer, frame 0. -/
def loopStart : LoopState := { ps := psZero, pendingTimers := 0 }


/-- Helper: when every temporary context acquisition succeeds, the decode
loop over `remaining` frames returns a list of exactly `remaining` frames. -/
theorem extractFramesGo_length (env : CanvasEnv) (reader : GifReader)
    (ht : ∀ i, env.tempCtxOk i = true) :
    ∀ (remaining i : Nat) (ctx : Canvas),
      (extractFramesGo env reader i remaining ctx).map List.length
        = some remaining := by
  intro remaining
  induction remaining with
  | zero => intro i ctx; simp [extractFramesGo]
  | succ r ih =>
    intro i ctx
    have h := ih (i + 1) (extractFramesStep reader ctx i).1
    cases hgo : extractFramesGo env reader (i + 1) r (extractFramesStep reader ctx i).1 with
    | none => rw [hgo] at h; simp at h
    | some rest =>
      rw [hgo] at h
      simp at h
      simp [extractFramesGo, ht i, hgo, h]

/-- C1: the decode loop of `extractFrames` fetches the patch metadata with
`gifReader.frameInfo(0)` — a constant index — for every frame, not with the
loop index.  On a two-frame GIF whose frames carry delays 1 cs and 2 cs, the
emitted frame list has delays [10, 10] ms: frame 1 was built from frame 0's
metadata, although its own metadata gives delay 20 ms. -/
theorem extractFrames_metadata_uses_index_zero :
    (extractFrames envOk twoFrameReader).map (List.map Frame.delay) = some [10, 10]
    ∧ (twoFrameReader.frameInfo 1).delay * 10 = 20 :=
  ⟨rfl, rfl⟩

/-- C2 counterexample: on a reader that reports zero frames (with all
contexts acquirable), the decode attempt does not end in the error state —
`extractFrames` returns an empty array, which is truthy in JavaScript, so
the hook resolves.  This refutes the claim that the state becomes Error and
never Ready. -/
theorem zero_frames_resolves_cex :
    emptyReader.numFrames = 0
    ∧ (loadGifResolve envOk emptyReader).isError = false
    ∧ (loadGifResolve envOk emptyReader).isResolved = true :=
  ⟨rfl, rfl, rfl⟩

/-- C2 amended: for every reader reporting zero frames, when the
accumulation context is acquirable, the decode attempt resolves to the Ready
state carrying an empty frame list; no EmptyFrameSet error state exists in
the code. -/
theorem zero_frames_resolved (env : CanvasEnv) (reader : GifReader)
    (hc : env.ctxOk = true) (hn : reader.numFrames = 0) :
    loadGifResolve env reader = .resolved reader [] := by
  simp [loadGifResolve, extractFrames, hc, hn, extractFramesGo]

/-- C2 amended, witness: the zero-frame reader with all contexts acquirable
resolves to the Ready state with no frames. -/
theorem zero_frames_resolved_witness :
    envOk.ctxOk = true ∧ emptyReader.numFrames = 0
    ∧ loadGifResolve envOk emptyReader = .resolved emptyReader [] :=
  ⟨rfl, rfl, zero_frames_resolved envOk emptyReader rfl rfl⟩

/-- C7: `useGifController` has no stale-decode protection: the `loadGif`
continuation applies its result unconditionally when it resolves.  When the
decode of a one-frame GIF (urlA) resolves after the decode of a two-frame
GIF (urlB) that replaced it, the final state carries urlA's reader (frame
count 1), not urlB's (frame count 2), contradicting the claim that the
stale result is discarded. -/
theorem stale_decode_overwrites :
    (resolveDecode envOk oneFrameReader
        (resolveDecode envOk twoFrameReader HookState.loading)).resolvedFrameCount
      = some oneFrameReader.numFrames
    ∧ oneFrameReader.numFrames = 1 ∧ twoFrameReader.numFrames = 2 :=
  ⟨rfl, rfl, rfl⟩

/-- C10: whenever the accumulation context and every temporary context can
be acquired, `extractFrames` returns a non-null list whose length equals
`numFrames()`; in particular a zero-frame reader yields `some []`, not
null. -/
theorem extractFrames_length (env : CanvasEnv) (reader : GifReader)
    (hc : env.ctxOk = true) (ht : ∀ i, env.tempCtxOk i = true) :
    (extractFrames env reader).map List.length = some reader.numFrames
    ∧ (reader.numFrames = 0 → extractFrames env reader = some []) := by
  constructor
  · have h := extractFramesGo_length env reader ht reader.numFrames 0 blankCanvas
    simpa [extractFrames, hc] using h
  · intro h0
    simp [extractFrames, hc, h0, extractFramesGo]

/-- C10 witness: on the concrete two-frame reader with every context
acquirable, `extractFrames` returns a list of length `numFrames()` = 2. -/
theorem extractFrames_length_witness :
    (extractFrames envOk twoFrameReader).map List.length
      = some twoFrameReader.numFrames
    ∧ (twoFrameReader.numFrames = 0 → extractFrames envOk twoFrameReader = some []) :=
  extractFrames_length envOk twoFrameReader rfl (fun _ => rfl)

/-- Helper: `renderFrame` never modifies the `frameIndex` ref (the source
parameter shadows the ref of the same name). -/
theorem renderFrame_frameIndex (ctxOk : Bool) (hs : HookState)
    (ps : PlaybackState) (i : Int) :
    (renderFrame ctxOk hs ps i).frameIndex = ps.frameIndex := by
  cases hs <;> simp only [renderFrame] <;> split_ifs <;> rfl

/-- Helper: `renderFrame` never modifies the playing flag. -/
theorem renderFrame_playing (ctxOk : Bool) (hs : HookState)
    (ps : PlaybackState) (i : Int) :
    (renderFrame ctxOk hs ps i).playing = ps.playing := by
  cases hs <;> simp only [renderFrame] <;> split_ifs <;> rfl

/-- Helper: `renderNextFrame` never modifies the playing flag. -/
theorem renderNextFrame_playing (ctxOk : Bool) (hs : HookState)
    (ps : PlaybackState) :
    (renderNextFrame ctxOk hs ps).playing = ps.playing := by
  cases hs <;> simp only [renderNextFrame] <;> split_ifs <;>
    simp [renderFrame_playing]

/-- C3 counterexample: in a resolved state over a two-frame reader, calling
`renderFrame(1)` with index 1 in range leaves the `frameIndex` ref at 0: the
source's `renderFrame` parameter shadows the ref, so the ref is never
assigned, refuting the claim that `renderFrame(i)` sets the current frame
index to `i`. -/
theorem renderFrame_does_not_set_index_cex :
    0 ≤ (1 : Int) ∧ (1 : Int) < (twoFrameReader.numFrames : Int)
    ∧ (renderFrame true resolvedTwo psZero 1).frameIndex = 0
    ∧ ((0 : Int) = 1 → False) :=
  ⟨by decide, by decide, rfl, by decide⟩

/-- C3 amended: in the resolved state with the context available,
`renderFrame(i)` is a no-op for `i` outside [0, numFrames); for `i` in
range it writes frame `i`'s imageData to the drawable and changes nothing
else — in particular the current frame index and the playing flag are left
unchanged (the index is updated only by `renderNextFrame`,
`renderPreviousFrame` and `restart`). -/
theorem renderFrame_spec (reader : GifReader) (frames : List Frame)
    (ps : PlaybackState) (i : Int) :
    (renderFrame true (.resolved reader frames) ps i).frameIndex = ps.frameIndex
    ∧ (renderFrame true (.resolved reader frames) ps i).playing = ps.playing
    ∧ ((i < 0 ∨ (reader.numFrames : Int) ≤ i) →
        renderFrame true (.resolved reader frames) ps i = ps)
    ∧ (0 ≤ i → i < (reader.numFrames : Int) →
        renderFrame true (.resolved reader frames) ps i
          = { ps with
              drawable :=
                putImageData ps.drawable (frames.getD i.toNat default).imageData
                  0 0 0 0 reader.width reader.height }) := by
  refine ⟨renderFrame_frameIndex _ _ _ _, renderFrame_playing _ _ _ _, ?_, ?_⟩
  · intro h
    show (if (true = false) then ps
          else if i < 0 ∨ (reader.numFrames : Int) ≤ i then ps
          else _) = ps
    rw [if_neg (by decide), if_pos h]
  · intro h0 h1
    show (if (true = false) then ps
          else if i < 0 ∨ (reader.numFrames : Int) ≤ i then ps
          else _) = _
    rw [if_neg (by decide), if_neg (by omega)]

/-- C3 amended, witness: at the concrete resolved two-frame state,
`renderFrame(5)` is a no-op and `renderFrame(1)` only rewrites the
drawable. -/
theorem renderFrame_spec_witness :
    renderFrame true (.resolved twoFrameReader twoFrames) psZero 5 = psZero
    ∧ renderFrame true (.resolved twoFrameReader twoFrames) psZero 1
      = { psZero with
          drawable :=
            putImageData psZero.drawable
              (twoFrames.getD (1 : Int).toNat default).imageData
              0 0 0 0 twoFrameReader.width twoFrameReader.height } :=
  ⟨(renderFrame_spec twoFrameReader twoFrames psZero 5).2.2.1 (Or.inr (by decide)),
   (renderFrame_spec twoFrameReader twoFrames psZero 1).2.2.2 (by decide) (by decide)⟩

/-- C8 counterexample: while the hook state is Loading, `restart()` is not a
no-op — it unconditionally sets the `frameIndex` ref to 0 although it held
-1 — and `pause()` unconditionally clears the playing flag that autoplay had
set, refuting the claim that every playback operation is a no-op while
Loading or Error. -/
theorem restart_not_noop_while_loading_cex :
    HookState.isLoading .loading = true
    ∧ psLoading.frameIndex = -1
    ∧ (restart .loading psLoading).frameIndex = 0
    ∧ ((0 : Int) = -1 → False)
    ∧ psLoading.playing = true
    ∧ (pause .loading psLoading).playing = false :=
  ⟨rfl, rfl, rfl, by decide, rfl, rfl⟩

/-- C8 amended: while the hook state is Loading or Error, `play`,
`renderFrame`, `renderNextFrame` and `renderPreviousFrame` are guarded
no-ops that raise no error; `pause` and `restart`, however, carry no guard:
`pause` always sets the playing flag to false and `restart` always sets the
current frame index to 0. -/
theorem playback_ops_loading_error_spec (hs : HookState) (ps : PlaybackState)
    (i : Int) (ctxOk : Bool)
    (h : hs.isLoading = true ∨ hs.isError = true) :
    renderFrame ctxOk hs ps i = ps
    ∧ renderNextFrame ctxOk hs ps = ps
    ∧ renderPreviousFrame ctxOk hs ps = ps
    ∧ play hs ps = ps
    ∧ pause hs ps = { ps with playing := false }
    ∧ restart hs ps = { ps with frameIndex := 0 } := by
  cases hs with
  | loading => exact ⟨rfl, rfl, rfl, rfl, rfl, rfl⟩
  | error m => exact ⟨rfl, rfl, rfl, rfl, rfl, rfl⟩
  | resolved r f => simp [HookState.isLoading, HookState.isError] at h

/-- C8 amended, witness: the guarded operations are no-ops in the Loading
state and the unguarded `pause` and `restart` perform their writes. -/
theorem playback_ops_loading_error_witness :
    renderFrame true .loading psZero 0 = psZero
    ∧ renderNextFrame true .loading psZero = psZero
    ∧ renderPreviousFrame true .loading psZero = psZero
    ∧ play .loading psZero = psZero
    ∧ pause .loading psZero = { psZero with playing := false }
    ∧ restart .loading psZero = { psZero with frameIndex := 0 } :=
  playback_ops_loading_error_spec .loading psZero 0 true (Or.inl rfl)

/-- C9: in a resolved state with the current index in range,
`renderPreviousFrame` is the exact inverse of `renderNextFrame` on the
current frame index, in either order, including across the wraparound
boundaries 0 and numFrames - 1. -/
theorem renderNext_renderPrev_inverse (ctxOk : Bool) (reader : GifReader)
    (frames : List Frame) (ps : PlaybackState)
    (h0 : 0 ≤ ps.frameIndex) (h1 : ps.frameIndex < (reader.numFrames : Int)) :
    (renderPreviousFrame ctxOk (.resolved reader frames)
        (renderNextFrame ctxOk (.resolved reader frames) ps)).frameIndex
      = ps.frameIndex
    ∧ (renderNextFrame ctxOk (.resolved reader frames)
        (renderPreviousFrame ctxOk (.resolved reader frames) ps)).frameIndex
      = ps.frameIndex := by
  cases ctxOk with
  | false =>
    constructor <;> simp [renderNextFrame, renderPreviousFrame]
  | true =>
    constructor <;>
      simp only [renderNextFrame, renderPreviousFrame] <;>
      split_ifs <;>
      simp_all [renderFrame_frameIndex] <;>
      omega

/-- C9 witness: at the concrete resolved two-frame state with current index
1 (the last frame), stepping forward then back — and back then forward —
restores index 1. -/
theorem renderNext_renderPrev_inverse_witness :
    (renderPreviousFrame true (.resolved twoFrameReader twoFrames)
        (renderNextFrame true (.resolved twoFrameReader twoFrames) psOne)).frameIndex
      = psOne.frameIndex
    ∧ (renderNextFrame true (.resolved twoFrameReader twoFrames)
        (renderPreviousFrame true (.resolved twoFrameReader twoFrames) psOne)).frameIndex
      = psOne.frameIndex :=
  renderNext_renderPrev_inverse true twoFrameReader twoFrames psOne
    (by decide) (by decide)

/-- C4 counterexample: for a disposal-code-2 patch whose dirty rectangle
sits at x = 1 (a 2 x 1 canvas, decoded pixels opaque blue, accumulation
buffer previously opaque red), the code reads the dirtyWidth x dirtyHeight
region at the temporary layer's origin (0,0) — not the dirty-rectangle
region at (1,0) — and writes it at (0,0): the buffer pixel at the dirty
rectangle (1,0) stays red instead of receiving the layer's blue pixel, and
the pixel (0,0) outside the dirty rectangle is overwritten with transparent
black.  Both parts refute the claim. -/
theorem disposal2_misplaced_cex :
    (disposal2Reader.frameInfo 0).disposal = 2
    ∧ (disposal2Reader.frameInfo 0).x = 1
    ∧ putImageData blankCanvas (disposal2Reader.pixels 0) 0 0 1 0 1 1 1 0 = bluePixel
    ∧ (extractFramesStep disposal2Reader redCanvas 0).1 1 0 = redPixel
    ∧ (extractFramesStep disposal2Reader redCanvas 0).1 0 0 = RGBA.clear
    ∧ redCanvas 0 0 = redPixel
    ∧ (redPixel = bluePixel → False)
    ∧ (RGBA.clear = redPixel → False) :=
  ⟨rfl, rfl, rfl, rfl, rfl, rfl, by decide, by decide⟩

/-- C4 amended: for every disposal-code-2 patch, the compositing step reads
the dirtyWidth x dirtyHeight region at the temporary layer's origin (0,0)
and writes it into the accumulation buffer at (0,0); every buffer pixel
outside [0, dirtyWidth) x [0, dirtyHeight) is unchanged.  This coincides
with the claimed dirty-rectangle read/write only when dirtyX = dirtyY = 0. -/
theorem extractFramesStep_disposal2_spec (reader : GifReader) (ctx : Canvas)
    (i : Nat) (h : (reader.frameInfo 0).disposal = 2) (x y : Nat) :
    (extractFramesStep reader ctx i).1 x y
      = if x < (reader.frameInfo 0).width ∧ y < (reader.frameInfo 0).height then
          putImageData blankCanvas (reader.pixels i) 0 0 (reader.frameInfo 0).x
            (reader.frameInfo 0).y (reader.frameInfo 0).width
            (reader.frameInfo 0).height x y
        else ctx x y := by
  have hno : ¬((reader.frameInfo 0).disposal = 0 ∨ (reader.frameInfo 0).disposal = 1) := by
    omega
  show (if (reader.frameInfo 0).disposal = 0 ∨ (reader.frameInfo 0).disposal = 1 then _
        else if (reader.frameInfo 0).disposal = 2 then
          putImageData ctx
            (getImageData
              (putImageData blankCanvas (reader.pixels i) 0 0 (reader.frameInfo 0).x
                (reader.frameInfo 0).y (reader.frameInfo 0).width
                (reader.frameInfo 0).height) 0 0)
            0 0 0 0 (reader.frameInfo 0).width (reader.frameInfo 0).height
        else ctx) x y = _
  rw [if_neg hno, if_pos h]
  show (if 0 + 0 ≤ x ∧ x < 0 + 0 + (reader.frameInfo 0).width
            ∧ 0 + 0 ≤ y ∧ y < 0 + 0 + (reader.frameInfo 0).height then
          getImageData
            (putImageData blankCanvas (reader.pixels i) 0 0 (reader.frameInfo 0).x
              (reader.frameInfo 0).y (reader.frameInfo 0).width
              (reader.frameInfo 0).height) 0 0 (x - 0) (y - 0)
        else ctx x y) = _
  by_cases hin : x < (reader.frameInfo 0).width ∧ y < (reader.frameInfo 0).height
  · rw [if_pos (by omega), if_pos hin]
    show putImageData blankCanvas (reader.pixels i) 0 0 (reader.frameInfo 0).x
          (reader.frameInfo 0).y (reader.frameInfo 0).width
          (reader.frameInfo 0).height (0 + (x - 0)) (0 + (y - 0)) = _
    simp
  · rw [if_neg (by omega), if_neg hin]

/-- C4 amended, witness: at the concrete disposal-2 reader and the pixel
(0, 0), the step writes the temporary layer's origin region there. -/
theorem extractFramesStep_disposal2_spec_witness :
    (disposal2Reader.frameInfo 0).disposal = 2
    ∧ ((extractFramesStep disposal2Reader redCanvas 0).1 0 0
        = if 0 < (disposal2Reader.frameInfo 0).width
              ∧ 0 < (disposal2Reader.frameInfo 0).height then
            putImageData blankCanvas (disposal2Reader.pixels 0) 0 0
              (disposal2Reader.frameInfo 0).x (disposal2Reader.frameInfo 0).y
              (disposal2Reader.frameInfo 0).width
              (disposal2Reader.frameInfo 0).height 0 0
          else redCanvas 0 0) :=
  ⟨rfl, extractFramesStep_disposal2_spec disposal2Reader redCanvas 0 rfl 0 0⟩

/-- C6: for every disposal-code-0-or-1 patch, the emitted composite frame
agrees with the previous accumulation buffer at every pixel outside the
dirty rectangle, and at every pixel whose decoded source value is fully
transparent — source-over compositing lets the prior content show
through. -/
theorem extractFramesStep_disposal01_persistence (reader : GifReader)
    (ctx : Canvas) (i : Nat)
    (h : (reader.frameInfo 0).disposal = 0 ∨ (reader.frameInfo 0).disposal = 1)
    (x y : Nat) :
    ((x < (reader.frameInfo 0).x
        ∨ (reader.frameInfo 0).x + (reader.frameInfo 0).width ≤ x
        ∨ y < (reader.frameInfo 0).y
        ∨ (reader.frameInfo 0).y + (reader.frameInfo 0).height ≤ y) →
      (extractFramesStep reader ctx i).2.imageData x y = ctx x y)
    ∧ ((reader.pixels i x y).a = 0 →
      (extractFramesStep reader ctx i).2.imageData x y = ctx x y) := by
  have hstep : (extractFramesStep reader ctx i).2.imageData
      = drawImage ctx
          (putImageData blankCanvas (reader.pixels i) 0 0 (reader.frameInfo 0).x
            (reader.frameInfo 0).y (reader.frameInfo 0).width
            (reader.frameInfo 0).height) := by
    show (if (reader.frameInfo 0).disposal = 0 ∨ (reader.frameInfo 0).disposal = 1 then
            drawImage ctx
              (putImageData blankCanvas (reader.pixels i) 0 0 (reader.frameInfo 0).x
                (reader.frameInfo 0).y (reader.frameInfo 0).width
                (reader.frameInfo 0).height)
          else _) = _
    rw [if_pos h]
  constructor
  · intro hout
    rw [hstep]
    show RGBA.over
        (putImageData blankCanvas (reader.pixels i) 0 0 (reader.frameInfo 0).x
          (reader.frameInfo 0).y (reader.frameInfo 0).width
          (reader.frameInfo 0).height x y) (ctx x y) = ctx x y
    rw [show putImageData blankCanvas (reader.pixels i) 0 0 (reader.frameInfo 0).x
          (reader.frameInfo 0).y (reader.frameInfo 0).width
          (reader.frameInfo 0).height x y = blankCanvas x y from if_neg (by omega)]
    rfl
  · intro ha
    rw [hstep]
    show RGBA.over
        (putImageData blankCanvas (reader.pixels i) 0 0 (reader.frameInfo 0).x
          (reader.frameInfo 0).y (reader.frameInfo 0).width
          (reader.frameInfo 0).height x y) (ctx x y) = ctx x y
    by_cases hin : 0 + (reader.frameInfo 0).x ≤ x
        ∧ x < 0 + (reader.frameInfo 0).x + (reader.frameInfo 0).width
        ∧ 0 + (reader.frameInfo 0).y ≤ y
        ∧ y < 0 + (reader.frameInfo 0).y + (reader.frameInfo 0).height
    · rw [show putImageData blankCanvas (reader.pixels i) 0 0 (reader.frameInfo 0).x
            (reader.frameInfo 0).y (reader.frameInfo 0).width
            (reader.frameInfo 0).height x y
          = reader.pixels i (x - 0) (y - 0) from if_pos hin]
      show (if (reader.pixels i (x - 0) (y - 0)).a = 0 then ctx x y else _) = ctx x y
      rw [if_pos (by simpa using ha)]
    · rw [show putImageData blankCanvas (reader.pixels i) 0 0 (reader.frameInfo 0).x
            (reader.frameInfo 0).y (reader.frameInfo 0).width
            (reader.frameInfo 0).height x y = blankCanvas x y from if_neg hin]
      rfl

/-- C6 witness: on the transparent one-frame disposal-0 reader over a red
accumulation buffer, the pixel (1, 0) outside the 1 x 1 dirty rectangle and
the fully transparent pixel (0, 0) inside it both keep the previous red
content. -/
theorem extractFramesStep_disposal01_witness :
    ((transparentReader.frameInfo 0).disposal = 0
      ∨ (transparentReader.frameInfo 0).disposal = 1)
    ∧ (extractFramesStep transparentReader redCanvas 0).2.imageData 1 0
        = redCanvas 1 0
    ∧ (transparentReader.pixels 0 0 0).a = 0
    ∧ (extractFramesStep transparentReader redCanvas 0).2.imageData 0 0
        = redCanvas 0 0 :=
  ⟨Or.inl rfl,
   (extractFramesStep_disposal01_persistence transparentReader redCanvas 0
      (Or.inl rfl) 1 0).1 (Or.inr (Or.inl (by decide))),
   rfl,
   (extractFramesStep_disposal01_persistence transparentReader redCanvas 0
      (Or.inl rfl) 0 0).2 rfl⟩

/-- C5 counterexample: from the quiescent resolved state, `play()` arms one
timer and `pause()` leaves it pending; when that tick fires it calls
`renderNextFrame()` before `_iterateRenderLoop()` checks the flag, so the
current frame index advances from 0 to 1 after `pause()` — refuting the
claim that the tick firing after `pause()` stops without rendering an
additional frame. -/
theorem pause_pending_tick_advances_cex :
    (pauseEvent resolvedTwo (playEvent resolvedTwo loopStart)).pendingTimers = 1
    ∧ (pauseEvent resolvedTwo (playEvent resolvedTwo loopStart)).ps.playing = false
    ∧ (fireTick true resolvedTwo
        (pauseEvent resolvedTwo (playEvent resolvedTwo loopStart))).ps.frameIndex = 1
    ∧ loopStart.ps.frameIndex = 0
    ∧ ((1 : Int) = 0 → False) :=
  ⟨rfl, rfl, rfl, rfl, by decide⟩

/-- C5 amended: after `play()` followed by `pause()` from a quiescent
resolved state, at most one timer tick is pending; the tick that then fires
performs exactly one `renderNextFrame()` (one more frame advance) before
observing `playing = false` and not rescheduling, leaving no pending timer,
and a further fire attempt changes nothing — so no double advance occurs. -/
theorem play_pause_single_tick_spec (ctxOk : Bool) (reader : GifReader)
    (frames : List Frame) (s : LoopState)
    (hp : s.ps.playing = false) (ht : s.pendingTimers = 0) :
    (pauseEvent (.resolved reader frames)
        (playEvent (.resolved reader frames) s)).pendingTimers ≤ 1
    ∧ fireTick ctxOk (.resolved reader frames)
        (pauseEvent (.resolved reader frames) (playEvent (.resolved reader frames) s))
      = { ps := renderNextFrame ctxOk (.resolved reader frames)
              (pauseEvent (.resolved reader frames)
                (playEvent (.resolved reader frames) s)).ps,
          pendingTimers := 0 }
    ∧ fireTick ctxOk (.resolved reader frames)
        (fireTick ctxOk (.resolved reader frames)
          (pauseEvent (.resolved reader frames)
            (playEvent (.resolved reader frames) s)))
      = fireTick ctxOk (.resolved reader frames)
          (pauseEvent (.resolved reader frames)
            (playEvent (.resolved reader frames) s)) := by
  obtain ⟨⟨fi, dr, pl⟩, pt⟩ := s
  simp only at hp ht
  subst hp; subst ht
  have harm : playEvent (.resolved reader frames) ⟨⟨fi, dr, false⟩, 0⟩
      = ⟨⟨fi, dr, true⟩, 1⟩ := rfl
  have hpause : pauseEvent (.resolved reader frames) ⟨⟨fi, dr, true⟩, 1⟩
      = ⟨⟨fi, dr, false⟩, 1⟩ := rfl
  rw [harm, hpause]
  have hnextplaying : (renderNextFrame ctxOk (.resolved reader frames)
      ⟨fi, dr, false⟩).playing = false := renderNextFrame_playing _ _ _
  have hfire : fireTick ctxOk (.resolved reader frames) ⟨⟨fi, dr, false⟩, 1⟩
      = { ps := renderNextFrame ctxOk (.resolved reader frames) ⟨fi, dr, false⟩,
          pendingTimers := 0 } := by
    show (if (1 : Nat) = 0 then _
          else iterateRenderLoop (.resolved reader frames)
            { ps := renderNextFrame ctxOk (.resolved reader frames) ⟨fi, dr, false⟩,
              pendingTimers := 1 - 1 }) = _
    rw [if_neg (by decide)]
    show (if (renderNextFrame ctxOk (.resolved reader frames)
            ⟨fi, dr, false⟩).playing = true then _ else _) = _
    rw [if_neg (by simp [hnextplaying])]
  refine ⟨Nat.le_refl 1, hfire, ?_⟩
  rw [hfire]
  show (if (0 : Nat) = 0 then _ else _) = _
  rw [if_pos rfl]

/-- C5 amended, witness: from the concrete quiescent resolved two-frame
state, play-then-pause leaves one pending tick that fires exactly one
`renderNextFrame` and disarms. -/
theorem play_pause_single_tick_witness :
    (pauseEvent (.resolved twoFrameReader twoFrames)
        (playEvent (.resolved twoFrameReader twoFrames) loopStart)).pendingTimers ≤ 1
    ∧ fireTick true (.resolved twoFrameReader twoFrames)
        (pauseEvent (.resolved twoFrameReader twoFrames)
          (playEvent (.resolved twoFrameReader twoFrames) loopStart))
      = { ps := renderNextFrame true (.resolved twoFrameReader twoFrames)
              (pauseEvent (.resolved twoFrameReader twoFrames)
                (playEvent (.resolved twoFrameReader twoFrames) loopStart)).ps,
          pendingTimers := 0 }
    ∧ fireTick true (.resolved twoFrameReader twoFrames)
        (fireTick true (.resolved twoFrameReader twoFrames)
          (pauseEvent (.resolved twoFrameReader twoFrames)
            (playEvent (.resolved twoFrameReader twoFrames) loopStart)))
      = fireTick true (.resolved twoFrameReader twoFrames)
          (pauseEvent (.resolved twoFrameReader twoFrames)
            (playEvent (.resolved twoFrameReader twoFrames) loopStart)) :=
  play_pause_single_tick_spec true twoFrameReader twoFrames loopStart rfl rfl
